import Mathlib

/-
Verification of the motion-control core of the remoteController firmware:
the axis controller (`src/device/device.cpp`) and the debounced button
state machine (`Button` in `src/main.cpp`).

Floats are modelled by `F`: NaN, the two infinities, or a finite value
carried as a rational.  The comparison operators follow IEEE semantics:
every comparison involving NaN is false.  The clamping logic of the
device only compares and copies float values, so this model is exact.

Timestamps (`millis()`) are modelled as natural numbers with truncated
subtraction; the button counter (`uint16_t state`) is a natural number
whose increment is taken modulo 2^16, exactly as the hardware would.
-/

namespace RemoteController

/-- A C++ `float` value as far as the device logic observes it:
NaN, -inf, +inf or a finite value (modelled as a rational). -/
inductive F where
  | nan : F
  | neginf : F
  | posinf : F
  | fin : ℚ → F
  deriving DecidableEq

/-- IEEE `<` on `F`: false whenever either side is NaN. -/
def F.ltb : F → F → Bool
  | .nan, _ => false
  | _, .nan => false
  | .neginf, .neginf => false
  | .neginf, _ => true
  | _, .neginf => false
  | .posinf, _ => false
  | .fin _, .posinf => true
  | .fin a, .fin b => decide (a < b)

/-- IEEE `<=` on `F`: false whenever either side is NaN. -/
def F.leb : F → F → Bool
  | .nan, _ => false
  | _, .nan => false
  | .neginf, _ => true
  | _, .neginf => false
  | _, .posinf => true
  | .posinf, _ => false
  | .fin a, .fin b => decide (a ≤ b)

/-- IEEE `>` on `F` (`a > b` is `b < a`). -/
def F.gtb (a b : F) : Bool := F.ltb b a

/-- IEEE `>=` on `F` (`a >= b` is `b <= a`). -/
def F.geb (a b : F) : Bool := F.leb b a

/-- The state of `class Device` (`src/device/device.h`). -/
structure Device where
  homed : Bool
  limit : F
  currentPosition : F
  ratio : F
  accel : F
  deriving DecidableEq

/-- The constructor `Device::Device()` from `device.cpp`: no parameters; `homed = false`,
`limit = 1000`, `currentPosition = 0.0`, `ratio = 1.0`, `accel = 1.0`. -/
def Device.init : Device :=
  { homed := false
    limit := .fin 1000
    currentPosition := .fin 0
    ratio := .fin 1
    accel := .fin 1 }

/-- Method `Device::homeAxis()`: `currentPosition = 0.0; homed = true;`. -/
def Device.homeAxis (d : Device) : Device :=
  { d with currentPosition := .fin 0, homed := true }

/-- Method `Device::setPosition(float newPosition)`: the three-way clamp from
`device.cpp`.  When no branch condition holds (NaN input) the state is
left unchanged, mirroring the if/else-if chain falling through. -/
def Device.setPosition (d : Device) (newPosition : F) : Device :=
  if F.ltb newPosition (.fin 0) then
    { d with currentPosition := .fin 0 }
  else if F.leb newPosition d.limit && F.geb newPosition (.fin 0) then
    { d with currentPosition := newPosition }
  else if F.gtb newPosition d.limit then
    { d with currentPosition := d.limit }
  else
    d

/-- Accessor `Device::isHomed()`. -/
def Device.isHomed (d : Device) : Bool := d.homed

/-- Accessor `Device::getPosition()`. -/
def Device.getPosition (d : Device) : F := d.currentPosition

/-- Accessor `Device::getLimit()`. -/
def Device.getLimit (d : Device) : F := d.limit

/-- The documented data-model invariant: `0 ≤ position ≤ limit`. -/
def Inv (d : Device) : Prop :=
  F.leb (.fin 0) d.currentPosition = true ∧ F.leb d.currentPosition d.limit = true

/-- Modelled from the spec: `construct(limit: float) -> AxisController`,
rejecting `limit < 0` with `InvalidConfig`.  There is no such constructor
in the source (`Device::Device()` is parameterless); this definition
follows the spec's words, for comparison with `Device.init`. -/
def constructSpec (limit : F) : Except String Device :=
  if F.ltb limit (.fin 0) then .error "InvalidConfig"
  else .ok { homed := false
             limit := limit
             currentPosition := .fin 0
             ratio := .fin 1
             accel := .fin 1 }

/-- Constant `const uint8_t DEBOUNCE_DELAY = 10;` from `main.cpp`. -/
def DEBOUNCE_DELAY : ℕ := 10

/-- The state of `struct Button` from `main.cpp` (the `pin` field is the
identity of the physical input and plays no role in the logic). -/
structure Button where
  lastReading : Bool
  lastDebounceTime : ℕ
  state : ℕ
  deriving DecidableEq

/-- Method `Button::pressed()`: `state == 1`. -/
def Button.pressed (b : Button) : Bool := b.state == 1

/-- Method `Button::released()`: `state == 0xffff`. -/
def Button.released (b : Button) : Bool := b.state == 65535

/-- Method `Button::held(count)`: `state > 1 + count && state < 0xffff`. -/
def Button.held (b : Button) (count : ℕ) : Bool :=
  decide (1 + count < b.state) && decide (b.state < 65535)

/-- Method `Button::read()` from `main.cpp`, with the raw pin level and the
`millis()` value passed in.  The pin is pulled up, so the logically
active ("pressed") level is `LOW`, i.e. `reading = false`. -/
def Button.read (b : Button) (reading : Bool) (now : ℕ) : Button :=
  { lastReading := reading
    lastDebounceTime := if reading ≠ b.lastReading then now else b.lastDebounceTime
    state :=
      if now - (if reading ≠ b.lastReading then now else b.lastDebounceTime) >
          DEBOUNCE_DELAY then
        if reading = false then
          if b.state < 65534 then (b.state + 1) % 65536
          else if b.state = 65534 then 2
          else b.state
        else if b.state ≠ 0 then
          (if b.state = 65535 then 0 else 65535)
        else b.state
      else b.state }

/-- Initialiser `Button button = { BTN_PIN, HIGH, 0, 0 };` — the constructed state. -/
def button0 : Button := { lastReading := true, lastDebounceTime := 0, state := 0 }

/-- Feed a list of `(rawLevel, now)` samples to the button, in order. -/
def Button.run : Button → List (Bool × ℕ) → Button
  | b, [] => b
  | b, (r, t) :: rest => Button.run (b.read r t) rest

/-- A bouncing trace: at every sample the time elapsed since the last raw
change (after the sample's own timer reset) is within `DEBOUNCE_DELAY`,
i.e. every raw transition occurs within the debounce window of the
previous change and the trace never lingers settled. -/
def Button.bouncy : Button → List (Bool × ℕ) → Bool
  | _, [] => true
  | b, (r, t) :: rest =>
      decide (t - (if r ≠ b.lastReading then t else b.lastDebounceTime) ≤ DEBOUNCE_DELAY)
      && Button.bouncy (b.read r t) rest

instance (d : Device) : Decidable (Inv d) := by
  unfold Inv
  infer_instance

theorem F.leb_trans {a b c : F} (h1 : F.leb a b = true) (h2 : F.leb b c = true) :
    F.leb a c = true := by
  cases a <;> cases b <;> cases c <;> simp_all [F.leb]
  exact le_trans h1 h2

theorem F.leb_refl_of_le {a b : F} (h : F.leb a b = true) : F.leb b b = true := by
  cases a <;> cases b <;> simp_all [F.leb]

/-- C1: starting from any state satisfying `0 ≤ position ≤ limit`, both
`setPosition target` (for every float `target`, NaN and infinities
included) and `homeAxis` re-establish the invariant. -/
theorem setPosition_homeAxis_preserve_Inv (d : Device) (h : Inv d) (target : F) :
    Inv (d.setPosition target) ∧ Inv d.homeAxis := by
  obtain ⟨h1, h2⟩ := h
  have h0 : F.leb (.fin 0) d.limit = true := F.leb_trans h1 h2
  have hz : F.leb (.fin 0) (.fin 0) = true := by decide
  refine ⟨?_, hz, h0⟩
  unfold Device.setPosition
  split
  · exact ⟨hz, h0⟩
  · split
    · rename_i hc
      rw [Bool.and_eq_true] at hc
      exact ⟨hc.2, hc.1⟩
    · split
      · exact ⟨h0, F.leb_refl_of_le h2⟩
      · exact ⟨h1, h2⟩

theorem setPosition_homeAxis_preserve_Inv_witness :
    Inv (Device.init.setPosition (F.fin 5)) ∧ Inv Device.init.homeAxis :=
  setPosition_homeAxis_preserve_Inv Device.init (by decide) (F.fin 5)

/-- C2: on any state satisfying the data model's `limit ≥ 0` (every
reachable state has `limit = 1000`), `setPosition` realises the three-way
clamp for every finite target. -/
theorem setPosition_clamps (d : Device) (q : ℚ) (hlim : F.leb (.fin 0) d.limit = true) :
    (q < 0 → (d.setPosition (.fin q)).currentPosition = .fin 0)
    ∧ (0 ≤ q → F.leb (.fin q) d.limit = true →
        (d.setPosition (.fin q)).currentPosition = .fin q)
    ∧ (F.ltb d.limit (.fin q) = true →
        (d.setPosition (.fin q)).currentPosition = d.limit) := by
  refine ⟨?_, ?_, ?_⟩
  · intro hq
    have hcond : F.ltb (.fin q) (.fin 0) = true := by
      simp only [F.ltb, decide_eq_true_eq]
      exact hq
    unfold Device.setPosition
    rw [if_pos hcond]
  · intro hq hle
    have hnot : ¬ F.ltb (.fin q) (.fin 0) = true := by
      simp only [F.ltb, decide_eq_true_eq, not_lt]
      exact hq
    have hcond : (F.leb (.fin q) d.limit && F.geb (.fin q) (.fin 0)) = true := by
      rw [Bool.and_eq_true]
      refine ⟨hle, ?_⟩
      simp only [F.geb, F.leb, decide_eq_true_eq]
      exact hq
    unfold Device.setPosition
    rw [if_neg hnot, if_pos hcond]
  · intro hlt
    rcases hL : d.limit with _ | _ | _ | b
    · rw [hL] at hlim; simp [F.leb] at hlim
    · rw [hL] at hlim; simp [F.leb] at hlim
    · rw [hL] at hlt; simp [F.ltb] at hlt
    · rw [hL] at hlim hlt
      simp only [F.leb, F.ltb, decide_eq_true_eq] at hlim hlt
      have hnot1 : ¬ F.ltb (.fin q) (.fin 0) = true := by
        simp only [F.ltb, decide_eq_true_eq, not_lt]
        linarith
      have hnot2 : ¬ (F.leb (.fin q) d.limit && F.geb (.fin q) (.fin 0)) = true := by
        rw [Bool.and_eq_true, hL]
        rintro ⟨hc, -⟩
        simp only [F.leb, decide_eq_true_eq] at hc
        linarith
      have hcond : F.gtb (.fin q) d.limit = true := by
        rw [hL]
        simp only [F.gtb, F.ltb, decide_eq_true_eq]
        exact hlt
      unfold Device.setPosition
      rw [if_neg hnot1, if_neg hnot2, if_pos hcond]
      exact hL

theorem setPosition_clamps_witness :
    (Device.init.setPosition (.fin (-5))).currentPosition = .fin 0
    ∧ (Device.init.setPosition (.fin 42)).currentPosition = .fin 42
    ∧ (Device.init.setPosition (.fin 2000)).currentPosition = Device.init.limit :=
  ⟨(setPosition_clamps Device.init (-5) (by decide)).1 (by decide),
   (setPosition_clamps Device.init 42 (by decide)).2.1 (by decide) (by decide),
   (setPosition_clamps Device.init 2000 (by decide)).2.2 (by decide)⟩

/-- C7: `homeAxis` zeroes the position and marks the axis homed from every
prior state; it is idempotent, and on a freshly-homed state (homed with
position already zero) it is literally a no-op. -/
theorem homeAxis_properties (d : Device) :
    d.homeAxis.getPosition = .fin 0
    ∧ d.homeAxis.isHomed = true
    ∧ d.homeAxis.homeAxis = d.homeAxis
    ∧ (d.homed = true → d.currentPosition = .fin 0 → d.homeAxis = d) := by
  refine ⟨rfl, rfl, rfl, fun hh hp => ?_⟩
  cases d
  simp_all [Device.homeAxis]

theorem homeAxis_properties_witness : Device.init.homeAxis.homeAxis = Device.init.homeAxis :=
  (homeAxis_properties Device.init.homeAxis).2.2.2 rfl rfl

/-- C8 counterexample: the source constructor `Device::Device()` takes no
limit parameter and fixes `limit = 1000`; it cannot produce the limit `80`
that the spec-style `construct(80)` yields, and it has no failure path. -/
theorem init_limit_not_as_given :
    (constructSpec (.fin 80)).map Device.getLimit = .ok (.fin 80)
    ∧ Device.init.getLimit = .fin 1000
    ∧ Device.init.getLimit ≠ .fin 80 :=
  ⟨rfl, rfl, by decide⟩

/-- C8 amended: construction takes no parameter, initializes
`position = 0`, `homed = false`, `limit = 1000`, and always succeeds. -/
theorem init_defaults :
    Device.init.getPosition = .fin 0
    ∧ Device.init.isHomed = false
    ∧ Device.init.getLimit = .fin 1000 :=
  ⟨rfl, rfl, rfl⟩

/-- C9: a NaN target makes all three branch conditions of `setPosition`
false, so the state is completely unchanged and the invariant survives. -/
theorem setPosition_nan_noop (d : Device) :
    d.setPosition .nan = d
    ∧ F.ltb .nan (.fin 0) = false
    ∧ (F.leb .nan d.limit && F.geb .nan (.fin 0)) = false
    ∧ F.gtb .nan d.limit = false
    ∧ (Inv d → Inv (d.setPosition .nan)) := by
  have h1 : F.ltb .nan (.fin 0) = false := rfl
  have h2 : F.leb .nan d.limit = false := by cases d.limit <;> rfl
  have h3 : F.gtb .nan d.limit = false := by
    unfold F.gtb
    cases d.limit <;> rfl
  have hmain : d.setPosition .nan = d := by
    unfold Device.setPosition
    rw [if_neg (by simp [h1]), if_neg (by simp [h2]), if_neg (by simp [h3])]
  exact ⟨hmain, h1, by simp [h2], h3, fun hI => hmain.symm ▸ hI⟩

theorem setPosition_nan_noop_witness : Inv (Device.init.setPosition .nan) :=
  (setPosition_nan_noop Device.init).2.2.2.2 (by decide)

/-- C10: `setPosition` can change only `currentPosition` (never `homed`,
`limit`, `ratio`, `accel`); `homeAxis` can change only `currentPosition`
and `homed`; and `homed`, once true, is never cleared by either. -/
theorem frame_conditions (d : Device) (target : F) :
    (d.setPosition target).homed = d.homed
    ∧ (d.setPosition target).limit = d.limit
    ∧ (d.setPosition target).ratio = d.ratio
    ∧ (d.setPosition target).accel = d.accel
    ∧ d.homeAxis.limit = d.limit
    ∧ d.homeAxis.ratio = d.ratio
    ∧ d.homeAxis.accel = d.accel
    ∧ (d.homed = true → (d.setPosition target).homed = true ∧ d.homeAxis.homed = true) := by
  have hs : (d.setPosition target).homed = d.homed
      ∧ (d.setPosition target).limit = d.limit
      ∧ (d.setPosition target).ratio = d.ratio
      ∧ (d.setPosition target).accel = d.accel := by
    unfold Device.setPosition
    split
    · exact ⟨rfl, rfl, rfl, rfl⟩
    · split
      · exact ⟨rfl, rfl, rfl, rfl⟩
      · split
        · exact ⟨rfl, rfl, rfl, rfl⟩
        · exact ⟨rfl, rfl, rfl, rfl⟩
  exact ⟨hs.1, hs.2.1, hs.2.2.1, hs.2.2.2, rfl, rfl, rfl,
    fun h => ⟨hs.1.trans h, rfl⟩⟩

theorem frame_conditions_witness :
    (Device.init.homeAxis.setPosition (.fin 3)).homed = true
    ∧ Device.init.homeAxis.homeAxis.homed = true :=
  (frame_conditions Device.init.homeAxis (.fin 3)).2.2.2.2.2.2.2 rfl

theorem Button.read_lastReading_eq (b : Button) (r : Bool) (t : ℕ) :
    (b.read r t).lastReading = r := rfl

theorem Button.read_lastDebounceTime_eq (b : Button) (r : Bool) (t : ℕ) :
    (b.read r t).lastDebounceTime =
      if r ≠ b.lastReading then t else b.lastDebounceTime := rfl

theorem Button.read_state_eq (b : Button) (r : Bool) (t : ℕ) :
    (b.read r t).state =
      if t - (if r ≠ b.lastReading then t else b.lastDebounceTime) > DEBOUNCE_DELAY then
        if r = false then
          if b.state < 65534 then (b.state + 1) % 65536
          else if b.state = 65534 then 2
          else b.state
        else if b.state ≠ 0 then
          (if b.state = 65535 then 0 else 65535)
        else b.state
      else b.state := rfl

/-- C6: every raw transition resets the settle timer (even when the
window has already elapsed), and the raw reading is stored on every
sample. -/
theorem sample_resets_timer (b : Button) (r : Bool) (t : ℕ) :
    (r ≠ b.lastReading → (b.read r t).lastDebounceTime = t)
    ∧ (b.read r t).lastReading = r := by
  refine ⟨fun h => ?_, rfl⟩
  rw [Button.read_lastDebounceTime_eq, if_pos h]

theorem sample_resets_timer_witness :
    (button0.read false 7).lastDebounceTime = 7
    ∧ (button0.read false 7).lastReading = false :=
  ⟨(sample_resets_timer button0 false 7).1 (by decide),
   (sample_resets_timer button0 false 7).2⟩

/-- C3 counterexample: at the released sentinel (`state = 0xffff`) an
active, settled sample leaves the state at `0xffff` — it is not reset
to `2` as the claim states (the reset-to-2 branch fires at `0xfffe`). -/
theorem sentinel_active_settled_stays :
    (Button.read ⟨false, 0, 65535⟩ false 100).state = 65535
    ∧ (Button.read ⟨false, 0, 65535⟩ false 100).state ≠ 2 := by decide

/-- C3 amended: on a settled active sample, `state` increments while
`state < 0xfffe`; at `state = 0xfffe` it wraps back to `2` (the held
counter cycles rather than saturating); at the released sentinel
`0xffff` the state is left unchanged, so a still-active settled read
right after a release keeps the release edge asserted. -/
theorem read_active_settled (b : Button) (r : Bool) (t : ℕ)
    (hset : t - (if r ≠ b.lastReading then t else b.lastDebounceTime) > DEBOUNCE_DELAY)
    (hact : r = false) :
    (b.state < 65534 → (b.read r t).state = (b.state + 1) % 65536)
    ∧ (b.state = 65534 → (b.read r t).state = 2)
    ∧ (b.state = 65535 → (b.read r t).state = 65535) := by
  subst hact
  rw [Button.read_state_eq, if_pos hset, if_pos rfl]
  refine ⟨fun h => ?_, fun h => ?_, fun h => ?_⟩
  · rw [if_pos h]
  · rw [if_neg (by omega), if_pos h]
  · rw [if_neg (by omega), if_neg (by omega)]
    exact h

theorem read_active_settled_witness :
    (Button.read ⟨false, 0, 3⟩ false 100).state = (3 + 1) % 65536 :=
  (read_active_settled ⟨false, 0, 3⟩ false 100 (by decide) rfl).1 (by decide)

/-- C4 counterexample: from the constructed state, after samples
`(LOW, 5)` and `(LOW, 20)` the press edge is asserted, and the next
sample `(HIGH, 21)` (a bounce: unsettled) leaves `state = 1`, so
`pressed()` is true on two consecutive samples. -/
theorem pressed_true_on_consecutive_samples :
    ((button0.read false 5).read false 20).pressed = true
    ∧ (((button0.read false 5).read false 20).read true 21).pressed = true := by
  decide

/-- C4 amended: the `pressed` edge state is left by the next settled
sample regardless of raw level, and the `released` sentinel is left by
the next settled inactive sample; an unsettled sample (or an active
settled sample at the sentinel) leaves the edge state in place, so the
one-sample-per-edge guarantee holds only for settled samples. -/
theorem edge_left_on_settled_sample (b : Button) (r : Bool) (t : ℕ)
    (hset : t - (if r ≠ b.lastReading then t else b.lastDebounceTime) > DEBOUNCE_DELAY) :
    (b.pressed = true → (b.read r t).pressed = false)
    ∧ (b.released = true → r = true → (b.read r t).state = 0) := by
  constructor
  · intro hp
    rw [Button.pressed, beq_iff_eq] at hp
    rw [Button.pressed, Button.read_state_eq, if_pos hset]
    cases r
    · rw [if_pos rfl, if_pos (by omega), hp]
      decide
    · rw [if_neg (by simp), if_pos (by omega), if_neg (by omega)]
      decide
  · intro hr hrt
    rw [Button.released, beq_iff_eq] at hr
    subst hrt
    rw [Button.read_state_eq, if_pos hset, if_neg (by simp), if_pos (by omega),
      if_pos hr]

theorem edge_left_on_settled_sample_witness :
    (Button.read ⟨false, 0, 1⟩ false 100).pressed = false :=
  (edge_left_on_settled_sample ⟨false, 0, 1⟩ false 100 (by decide)).1 (by decide)

theorem Button.read_state_of_bounce (b : Button) (r : Bool) (t : ℕ)
    (h : t - (if r ≠ b.lastReading then t else b.lastDebounceTime) ≤ DEBOUNCE_DELAY) :
    (b.read r t).state = b.state := by
  rw [Button.read_state_eq, if_neg (not_lt.mpr h)]

theorem Button.run_state_of_bouncy :
    ∀ (s : List (Bool × ℕ)) (b : Button),
      Button.bouncy b s = true → (Button.run b s).state = b.state
  | [], _, _ => rfl
  | (r, t) :: rest, b, h => by
      unfold Button.bouncy at h
      rw [Bool.and_eq_true, decide_eq_true_eq] at h
      unfold Button.run
      rw [Button.run_state_of_bouncy rest _ h.2, Button.read_state_of_bounce b r t h.1]

theorem Button.bouncy_append :
    ∀ (s1 s2 : List (Bool × ℕ)) (b : Button),
      Button.bouncy b (s1 ++ s2) = true → Button.bouncy b s1 = true
  | [], _, _, _ => rfl
  | (r, t) :: rest, s2, b, h => by
      rw [List.cons_append] at h
      unfold Button.bouncy at h ⊢
      rw [Bool.and_eq_true] at h ⊢
      exact ⟨h.1, Button.bouncy_append rest s2 _ h.2⟩

/-- C5: on a bouncing trace — every sample lies within `DEBOUNCE_DELAY`
of the last raw change — the debounce window never elapses, so starting
from the constructed state the counter stays `0` after every prefix of
the trace: no `pressed()`/`released()` edge is ever produced. -/
theorem bouncing_absorbed (s pre suf : List (Bool × ℕ))
    (hb : Button.bouncy button0 s = true) (hsplit : s = pre ++ suf) :
    (Button.run button0 pre).state = 0 := by
  subst hsplit
  exact Button.run_state_of_bouncy pre button0 (Button.bouncy_append pre suf button0 hb)

theorem bouncing_absorbed_witness :
    (Button.run button0 [(false, 3), (true, 6)]).state = 0 :=
  bouncing_absorbed [(false, 3), (true, 6), (false, 9)]
    [(false, 3), (true, 6)] [(false, 9)] (by decide) rfl

end RemoteController
